import Mathlib

/-!
Shallow embedding of the Hansen Solubility Parameter engine of
src/services/hansenSDK.ts (the HSPmol Engine version of the file, whose
line numbers the claims cite), together with the fragments of src/types.ts
it needs.  JavaScript numbers are modelled as exact real numbers; the
toFixed-then-parseFloat rounding idiom is modelled as round-to-nearest at
k decimal digits.  The RDKit WASM module is an external capability
boundary (spec section 4.1) and is modelled as an oracle record supplying
parse success and substructure matches; everything downstream of it is
translated statement by statement from the source.
-/

noncomputable section

/-- Model of parseFloat(x.toFixed(k)): round x to k decimal digits,
to nearest. -/
def toFixed (k : ℕ) (x : ℝ) : ℝ := ((round (x * 10 ^ k) : ℤ) : ℝ) / 10 ^ k

/-- Method provenance tags used in HansenParameters.method (src/types.ts
plus the Experimental (Ref) tag the SDK attaches). -/
inductive MethodTag where
  | vanKrevelen
  | stefanis
  | marcus
  | costas
  | manual
  | expRef
  deriving DecidableEq

/-- Preferred-method selector argument of HansenCalculator.calculate. -/
inductive PreferredMethod where
  | auto
  | vanKrevelen
  | stefanis
  | marcus
  | costas
  | manual
  | expRef
  deriving DecidableEq

/-- HansenParameters (src/types.ts) with the derived fields the SDK
spreads onto results (deltaT, deltaV, molarVolume); absent derived
fields are none. -/
structure HansenParameters where
  deltaD : ℝ
  deltaP : ℝ
  deltaH : ℝ
  deltaT : Option ℝ
  deltaV : Option ℝ
  molarVolume : Option ℝ
  method : MethodTag

/-- The fields of Molecule (src/types.ts) the engine reads or writes.
An absent englishName is none; JS falsiness of an empty string is
modelled explicitly where the source relies on it. -/
structure Molecule where
  name : String
  englishName : Option String
  smiles : String
  molecularWeight : ℝ
  hsp : Option HansenParameters

/-- Van Krevelen coefficient bundle of a functional group. -/
structure VKHCoeffs where
  Fd : ℝ
  Fp : ℝ
  Eh : ℝ
  V : ℝ

/-- Stefanis-Panayiotou coefficient bundle of a functional group. -/
structure SPCoeffs where
  Ed : ℝ
  Ep : ℝ
  Eh : ℝ
  V : ℝ

/-- One entry of the FUNCTIONAL_GROUPS table. -/
structure GroupContribution where
  smarts : String
  name : String
  priority : ℕ
  vkh : VKHCoeffs
  sp : SPCoeffs

def grpAcid : GroupContribution :=
  { smarts := "[CX3](=O)[OX2H1]", name := "-COOH (Acid)", priority := 100,
    vkh := { Fd := 530, Fp := 420, Eh := 10000, V := 28.5 },
    sp := { Ed := 11800, Ep := 6200, Eh := 29500, V := 29.8 } }

def grpEster : GroupContribution :=
  { smarts := "[CX3](=O)[OX2H0]", name := "-COO- (Ester)", priority := 95,
    vkh := { Fd := 390, Fp := 490, Eh := 7000, V := 18.0 },
    sp := { Ed := 6850, Ep := 4650, Eh := 6800, V := 21.0 } }

def grpPrimaryAmide : GroupContribution :=
  { smarts := "[CX3](=O)[NX3H2]", name := "-CONH2 (Primary Amide)", priority := 95,
    vkh := { Fd := 900, Fp := 1500, Eh := 18000, V := 29.0 },
    sp := { Ed := 18500, Ep := 31000, Eh := 42000, V := 28.0 } }

def grpSecondaryAmide : GroupContribution :=
  { smarts := "[CX3](=O)[NX3H1]", name := "-CONH- (Sec. Amide)", priority := 94,
    vkh := { Fd := 820, Fp := 1100, Eh := 8000, V := 25.0 },
    sp := { Ed := 14200, Ep := 19500, Eh := 18000, V := 24.5 } }

def grpKetone : GroupContribution :=
  { smarts := "[#6][CX3](=O)[#6]", name := ">C=O (Ketone)", priority := 90,
    vkh := { Fd := 290, Fp := 770, Eh := 2000, V := 10.8 },
    sp := { Ed := 4950, Ep := 9800, Eh := 2200, V := 13.5 } }

def grpAldehyde : GroupContribution :=
  { smarts := "[CX3H1](=O)", name := "-CHO (Aldehyde)", priority := 90,
    vkh := { Fd := 470, Fp := 800, Eh := 4500, V := 21.0 },
    sp := { Ed := 6100, Ep := 9200, Eh := 4100, V := 22.1 } }

def grpPhenyl : GroupContribution :=
  { smarts := "c1ccccc1", name := "Phenyl (C6H5-)", priority := 85,
    vkh := { Fd := 1270, Fp := 110, Eh := 0, V := 52.4 },
    sp := { Ed := 31500, Ep := 500, Eh := 100, V := 73.0 } }

def grpNitrile : GroupContribution :=
  { smarts := "C#N", name := "-CN (Nitrile)", priority := 80,
    vkh := { Fd := 430, Fp := 1100, Eh := 2500, V := 24.0 },
    sp := { Ed := 5800, Ep := 19000, Eh := 2800, V := 25.5 } }

def grpNitro : GroupContribution :=
  { smarts := "[N+](=O)[O-]", name := "-NO2 (Nitro)", priority := 80,
    vkh := { Fd := 500, Fp := 1000, Eh := 1500, V := 22.0 },
    sp := { Ed := 7100, Ep := 14500, Eh := 1900, V := 23.5 } }

def grpAlcohol : GroupContribution :=
  { smarts := "[OX2H]", name := "-OH (Alcohol)", priority := 75,
    vkh := { Fd := 280, Fp := 500, Eh := 20000, V := 10.0 },
    sp := { Ed := 3500, Ep := 3100, Eh := 24500, V := 9.8 } }

def grpEther : GroupContribution :=
  { smarts := "[OD2]([#6])[#6]", name := "-O- (Ether)", priority := 70,
    vkh := { Fd := 100, Fp := 400, Eh := 3000, V := 3.8 },
    sp := { Ed := 1200, Ep := 1800, Eh := 2500, V := 4.5 } }

def grpPrimaryAmine : GroupContribution :=
  { smarts := "[NX3;H2;!$(NC=O)]", name := "-NH2 (Pri. Amine)", priority := 70,
    vkh := { Fd := 280, Fp := 450, Eh := 8000, V := 18.5 },
    sp := { Ed := 3900, Ep := 4200, Eh := 9500, V := 20.1 } }

def grpFluoro : GroupContribution :=
  { smarts := "[F]", name := "-F", priority := 60,
    vkh := { Fd := 180, Fp := 100, Eh := 400, V := 15.0 },
    sp := { Ed := 1500, Ep := 500, Eh := 200, V := 11.0 } }

def grpChloro : GroupContribution :=
  { smarts := "[Cl]", name := "-Cl", priority := 60,
    vkh := { Fd := 450, Fp := 550, Eh := 400, V := 24.0 },
    sp := { Ed := 5100, Ep := 3200, Eh := 500, V := 23.5 } }

def grpBromo : GroupContribution :=
  { smarts := "[Br]", name := "-Br", priority := 60,
    vkh := { Fd := 600, Fp := 650, Eh := 500, V := 30.0 },
    sp := { Ed := 7200, Ep := 4500, Eh := 600, V := 28.5 } }

def grpCH3 : GroupContribution :=
  { smarts := "[CH3]", name := "-CH3", priority := 10,
    vkh := { Fd := 420, Fp := 0, Eh := 0, V := 33.5 },
    sp := { Ed := 4300, Ep := 0, Eh := 0, V := 33.4 } }

def grpCH2 : GroupContribution :=
  { smarts := "[CH2]", name := "-CH2-", priority := 9,
    vkh := { Fd := 270, Fp := 0, Eh := 0, V := 16.1 },
    sp := { Ed := 4150, Ep := 0, Eh := 0, V := 16.5 } }

def grpCH1 : GroupContribution :=
  { smarts := "[CH1]", name := ">CH-", priority := 8,
    vkh := { Fd := 80, Fp := 0, Eh := 0, V := -1.0 },
    sp := { Ed := 3800, Ep := 0, Eh := 0, V := -1.5 } }

def grpCH0 : GroupContribution :=
  { smarts := "[CH0]", name := ">C<", priority := 7,
    vkh := { Fd := -70, Fp := 0, Eh := 0, V := -19.2 },
    sp := { Ed := 2800, Ep := 0, Eh := 0, V := -18.0 } }

def grpDoubleBond : GroupContribution :=
  { smarts := "C=C", name := ">C=C< (Double Bond)", priority := 15,
    vkh := { Fd := 400, Fp := 200, Eh := 200, V := 12.0 },
    sp := { Ed := 3900, Ep := 400, Eh := 400, V := 11.5 } }

/-- The FUNCTIONAL_GROUPS table, in source order. -/
def FUNCTIONAL_GROUPS : List GroupContribution :=
  [grpAcid, grpEster, grpPrimaryAmide, grpSecondaryAmide, grpKetone, grpAldehyde,
   grpPhenyl, grpNitrile, grpNitro, grpAlcohol, grpEther, grpPrimaryAmine,
   grpFluoro, grpChloro, grpBromo, grpCH3, grpCH2, grpCH1, grpCH0, grpDoubleBond]

/-- Helper for the entries of REFERENCE_SOLVENTS: an experimental triple
with no derived fields. -/
def refEntry (d p h : ℝ) : HansenParameters :=
  { deltaD := d, deltaP := p, deltaH := h,
    deltaT := none, deltaV := none, molarVolume := none, method := .expRef }

/-- The REFERENCE_SOLVENTS record, as a lookup from key to entry. -/
def REFERENCE_SOLVENTS : String → Option HansenParameters := fun key =>
  match key with
  | "acetone" => some (refEntry 15.5 10.4 7.0)
  | "toluene" => some (refEntry 18.6 1.4 2.0)
  | "benzene" => some (refEntry 18.4 0.0 2.0)
  | "ethanol" => some (refEntry 15.8 8.8 19.4)
  | "methanol" => some (refEntry 15.1 12.3 22.3)
  | "chloroform" => some (refEntry 17.8 3.1 5.7)
  | "dmso" => some (refEntry 18.4 16.4 10.2)
  | "dmf" => some (refEntry 17.4 13.7 11.3)
  | "water" => some (refEntry 15.5 16.0 42.3)
  | "n-hexane" => some (refEntry 14.9 0.0 0.0)
  | "cyclohexane" => some (refEntry 16.8 0.0 0.2)
  | "ethyl acetate" => some (refEntry 15.8 5.3 7.2)
  | "tetrahydrofuran" => some (refEntry 16.8 5.7 8.0)
  | "dichloromethane" => some (refEntry 18.2 6.3 6.1)
  | "acetonitrile" => some (refEntry 15.3 18.0 6.1)
  | "pyridine" => some (refEntry 19.0 8.8 5.9)
  | _ => none

/-- The aliasMap local to getReferenceData, as a lookup. -/
def aliasMap : String → Option String := fun key =>
  match key with
  | "acetona" => some "acetone"
  | "água" => some "water"
  | "agua" => some "water"
  | "etanol" => some "ethanol"
  | "metanol" => some "methanol"
  | "clorofórmio" => some "chloroform"
  | "dmso" => some "dmso"
  | "tolueno" => some "toluene"
  | "benzeno" => some "benzene"
  | "hexano" => some "n-hexane"
  | "diclorometano" => some "dichloromethane"
  | _ => none

namespace HansenCalculator

/-- HansenCalculator.getReferenceData: case-insensitive, trimmed lookup,
canonical key first, then the alias table. -/
def getReferenceData (moleculeName : String) : Option HansenParameters :=
  let key := moleculeName.toLower.trim
  match REFERENCE_SOLVENTS key with
  | some r => some r
  | none =>
    match aliasMap key with
    | some canonical => REFERENCE_SOLVENTS canonical
    | none => none

end HansenCalculator

/-- One substructure match reported by the graph adapter: a set of atom
indices, as returned by get_substruct_matches. -/
structure SubMatch where
  atoms : List ℕ

/-- Oracle for the RDKit WASM boundary.  parse models get_mol success or
failure on a SMILES string (hydrogen addition included); substructMatches
models get_qmol plus get_substruct_matches for one SMILES and one SMARTS:
none when the SMARTS fails to compile (the source skips the group), some
list otherwise (a JSON parse failure in the source yields the empty
list, which is observationally the same as some []). -/
structure RDKitAdapter where
  parse : String → Option Unit
  substructMatches : String → String → Option (List SubMatch)

/-- One assigned fragment: a group of the table with its accepted
occurrence count. -/
structure Fragment where
  group : GroupContribution
  count : ℕ

namespace HansenCalculator

/-- Stable descending insertion by priority: a group is placed before
the first entry whose priority does not exceed its own, so entries of
equal priority keep their table order. -/
def insertByPriority (g : GroupContribution) : List GroupContribution → List GroupContribution
  | [] => [g]
  | h :: t => if h.priority ≤ g.priority then g :: h :: t else h :: insertByPriority g t

/-- Stable descending sort by priority. -/
def sortByPriorityDesc : List GroupContribution → List GroupContribution
  | [] => []
  | h :: t => insertByPriority h (sortByPriorityDesc t)

/-- The sorted group table built in fragmentMolecule, modelling the
stable JS sort [...FUNCTIONAL_GROUPS].sort((a, b) => b.priority -
a.priority) by a stable insertion sort. -/
def sortedGroups : List GroupContribution :=
  sortByPriorityDesc FUNCTIONAL_GROUPS

/-- The inner for-loop of fragmentMolecule over the matches of one group:
threads the accepted count, consumed atom set, and (as verification ghost
state, not stored by the source) the list of accepted matches.  A match
is rejected whole when any of its atom indices is already consumed;
otherwise its count is taken and its atoms are marked consumed. -/
def processGroup : List SubMatch → ℕ × List SubMatch × Finset ℕ → ℕ × List SubMatch × Finset ℕ
  | [], acc => acc
  | mtch :: rest, (cnt, accepted, consumed) =>
    if mtch.atoms.any (fun i => decide (i ∈ consumed)) then
      processGroup rest (cnt, accepted, consumed)
    else
      processGroup rest (cnt + 1, accepted ++ [mtch], consumed ∪ mtch.atoms.toFinset)

/-- The outer for-loop of fragmentMolecule over the sorted groups: for
each group obtain its matches (a group whose SMARTS does not compile is
skipped), run the greedy inner loop starting from count 0, and record
the fragment when its count is positive. -/
def runFragmentation (matchesFor : String → Option (List SubMatch)) :
    List GroupContribution → List Fragment × List SubMatch × Finset ℕ →
      List Fragment × List SubMatch × Finset ℕ
  | [], acc => acc
  | g :: rest, (frs, accepted, consumed) =>
    match matchesFor g.smarts with
    | none => runFragmentation matchesFor rest (frs, accepted, consumed)
    | some ms =>
      let r := processGroup ms (0, accepted, consumed)
      runFragmentation matchesFor rest
        ((if 0 < r.1 then frs ++ [⟨g, r.1⟩] else frs), r.2.1, r.2.2)

/-- HansenCalculator.fragmentMolecule: none for an absent (empty, hence
JS-falsy) or unparseable SMILES string and when no group matched at all;
otherwise the accepted fragment list. -/
def fragmentMolecule (ad : RDKitAdapter) (smiles : String) : Option (List Fragment) :=
  if smiles = "" then none
  else
    match ad.parse smiles with
    | none => none
    | some _ =>
      let r := runFragmentation (ad.substructMatches smiles) sortedGroups ([], [], ∅)
      if r.1.isEmpty then none else some r.1

/-- Ghost projection of the fragmentation pass: every match accepted
across all groups, in acceptance order. -/
def acceptedMatches (ad : RDKitAdapter) (smiles : String) : List SubMatch :=
  (runFragmentation (ad.substructMatches smiles) sortedGroups ([], [], ∅)).2.1

/-- Result triple of calculateDerivedProperties. -/
structure DerivedProperties where
  deltaT : ℝ
  deltaV : ℝ
  molarVolume : ℝ

/-- HansenCalculator.calculateDerivedProperties. -/
def calculateDerivedProperties (d p h vm : ℝ) : DerivedProperties :=
  { deltaT := toFixed 1 (Real.sqrt (d * d + p * p + h * h)),
    deltaV := toFixed 1 (Real.sqrt (d * d + p * p)),
    molarVolume := toFixed 1 vm }

/-- HansenCalculator.calculateVanKrevelen on an assigned fragment list
and a molecular weight. -/
def calculateVanKrevelen (fragments : List Fragment) (mw : ℝ) : HansenParameters :=
  let sumFd := fragments.foldl (fun acc f => acc + f.group.vkh.Fd * (f.count : ℝ)) 0
  let sumFp2 := fragments.foldl (fun acc f => acc + f.group.vkh.Fp ^ 2 * (f.count : ℝ)) 0
  let sumEh := fragments.foldl (fun acc f => acc + f.group.vkh.Eh * (f.count : ℝ)) 0
  let sumV0 := fragments.foldl (fun acc f => acc + f.group.vkh.V * (f.count : ℝ)) 0
  let sumV := if sumV0 ≤ 5 then mw else sumV0
  let deltaD := sumFd / sumV
  let deltaP := Real.sqrt sumFp2 / sumV
  let deltaH := Real.sqrt (sumEh / sumV)
  let der := calculateDerivedProperties deltaD deltaP deltaH sumV
  { deltaD := toFixed 1 deltaD, deltaP := toFixed 1 deltaP, deltaH := toFixed 1 deltaH,
    deltaT := some der.deltaT, deltaV := some der.deltaV, molarVolume := some der.molarVolume,
    method := .vanKrevelen }

/-- HansenCalculator.calculateStefanis. -/
def calculateStefanis (fragments : List Fragment) (mw : ℝ) : HansenParameters :=
  let sumEd := fragments.foldl (fun acc f => acc + f.group.sp.Ed * (f.count : ℝ)) 0
  let sumEp := fragments.foldl (fun acc f => acc + f.group.sp.Ep * (f.count : ℝ)) 0
  let sumEh := fragments.foldl (fun acc f => acc + f.group.sp.Eh * (f.count : ℝ)) 0
  let sumV0 := fragments.foldl (fun acc f => acc + f.group.sp.V * (f.count : ℝ)) 0
  let sumV := if sumV0 ≤ 5 then mw else sumV0
  let deltaD := Real.sqrt (sumEd / sumV)
  let deltaP := Real.sqrt (sumEp / sumV)
  let deltaH := Real.sqrt (sumEh / sumV)
  let der := calculateDerivedProperties deltaD deltaP deltaH sumV
  { deltaD := toFixed 1 deltaD, deltaP := toFixed 1 deltaP, deltaH := toFixed 1 deltaH,
    deltaT := some der.deltaT, deltaV := some der.deltaV, molarVolume := some der.molarVolume,
    method := .stefanis }

/-- HansenCalculator.calculateMarcus. -/
def calculateMarcus (molecule : Molecule) : HansenParameters :=
  let mw := molecule.molecularWeight
  let factor := min (mw / 200) 1.5
  let d := 17.0 * factor
  let p := 25.0 / factor
  let h := 15.0 / Real.sqrt factor
  let estimatedVm := mw / 1.25
  let der := calculateDerivedProperties d p h estimatedVm
  { deltaD := toFixed 1 d, deltaP := toFixed 1 p, deltaH := toFixed 1 h,
    deltaT := some der.deltaT, deltaV := some der.deltaV, molarVolume := some der.molarVolume,
    method := .marcus }

/-- HansenCalculator.calculateCostas: refragments the molecule, and on
failure returns the zeroed Costas record of the source (not null); on
success scales the Van Krevelen base by the thermal factor.  The JS
expression (base.molarVolume or 100) is falsy exactly on 0 here, since
the base always carries a molar volume. -/
def calculateCostas (ad : RDKitAdapter) (molecule : Molecule) (temp : ℝ) : HansenParameters :=
  match fragmentMolecule ad molecule.smiles with
  | none =>
    { deltaD := 0, deltaP := 0, deltaH := 0,
      deltaT := none, deltaV := none, molarVolume := none, method := .costas }
  | some fragments =>
    let base := calculateVanKrevelen fragments molecule.molecularWeight
    let alpha := (0.0011 : ℝ)
    let dT := temp - 298.15
    let factor := 1 - alpha * dT
    let newD := base.deltaD * factor
    let newP := base.deltaP * factor
    let newH := base.deltaH * factor
    let baseVm : ℝ :=
      match base.molarVolume with
      | none => 100
      | some v => if v = 0 then 100 else v
    let newV := baseVm * (1 + alpha * dT)
    let der := calculateDerivedProperties newD newP newH newV
    { deltaD := toFixed 1 newD, deltaP := toFixed 1 newP, deltaH := toFixed 1 newH,
      deltaT := some der.deltaT, deltaV := some der.deltaV, molarVolume := some der.molarVolume,
      method := .costas }

/-- HansenCalculator.calculateDistance: the Hansen distance, rounded to
two decimals. -/
def calculateDistance (mol1 mol2 : HansenParameters) : ℝ :=
  let termD := 4 * (mol1.deltaD - mol2.deltaD) ^ 2
  let termP := (mol1.deltaP - mol2.deltaP) ^ 2
  let termH := (mol1.deltaH - mol2.deltaH) ^ 2
  toFixed 2 (Real.sqrt (termD + termP + termH))

/-- HansenCalculator.isComplexMolecule. -/
def isComplexMolecule (mol : Molecule) : Bool :=
  decide (mol.smiles.length > 10) || (mol.smiles.contains 'O' && mol.smiles.contains 'N')

/-- The JS truthiness test guarding Marcus in processMolecule:
molecule.smiles and a dot, plus sign or minus sign inside it. -/
def marcusApplicable (smiles : String) : Bool :=
  !smiles.isEmpty && (smiles.contains '.' || smiles.contains '+' || smiles.contains '-')

/-- The preferred lookup name: molecule.englishName or molecule.name,
with the empty string falsy. -/
def preferredName (m : Molecule) : String :=
  match m.englishName with
  | some s => if s = "" then m.name else s
  | none => m.name

/-- The spread building the authoritative reference record in
processMolecule and in the Experimental (Ref) branch of calculate:
the reference triple plus derived properties at an estimated molar
volume of molecularWeight / 0.9, tagged Experimental (Ref). -/
def completeReference (refData : HansenParameters) (mw : ℝ) : HansenParameters :=
  let der := calculateDerivedProperties refData.deltaD refData.deltaP refData.deltaH (mw / 0.9)
  { deltaD := refData.deltaD, deltaP := refData.deltaP, deltaH := refData.deltaH,
    deltaT := some der.deltaT, deltaV := some der.deltaV, molarVolume := some der.molarVolume,
    method := .expRef }

/-- The zeroed manual placeholder record of the source. -/
def zeroManual : HansenParameters :=
  { deltaD := 0, deltaP := 0, deltaH := 0,
    deltaT := none, deltaV := none, molarVolume := none, method := .manual }

/-- HansenCalculator.processMolecule: run every engine, and return the
reference record when one exists, otherwise select heuristically.  The
costasOpt value mirrors the JS truthiness of the always-non-null object
costasHSP, which makes the final manual fallback of the source dead
code, exactly as in the original. -/
def processMolecule (ad : RDKitAdapter) (molecule : Molecule) : Molecule :=
  let refData := getReferenceData (preferredName molecule)
  let fragments := fragmentMolecule ad molecule.smiles
  let vkhHSP := fragments.map (fun frs => calculateVanKrevelen frs molecule.molecularWeight)
  let spHSP := fragments.map (fun frs => calculateStefanis frs molecule.molecularWeight)
  let costasHSP := calculateCostas ad molecule 298.15
  let marcusHSP :=
    if marcusApplicable molecule.smiles then some (calculateMarcus molecule) else none
  match refData with
  | some refD =>
    { molecule with hsp := some (completeReference refD molecule.molecularWeight) }
  | none =>
    let costasOpt : Option HansenParameters := some costasHSP
    let tailSelect : HansenParameters :=
      match vkhHSP with
      | some hV => hV
      | none =>
        match costasOpt with
        | some hC => hC
        | none => zeroManual
    let selectedHSP : HansenParameters :=
      match marcusHSP with
      | some hM => hM
      | none =>
        match spHSP with
        | some hS => if isComplexMolecule molecule then hS else tailSelect
        | none => tailSelect
    { molecule with hsp := some selectedHSP }

/-- HansenCalculator.calculate (the simple wrapper): Manual returns the
existing record or the zeroed placeholder; Experimental (Ref) returns
the completed reference or falls through to Auto; Marcus and Costas are
direct; the rest fragment first and return null on failure. -/
def calculate (ad : RDKitAdapter) (molecule : Molecule) (method : PreferredMethod) :
    Option HansenParameters :=
  if method = .manual then
    some (molecule.hsp.getD zeroManual)
  else
    let afterRef : HansenParameters ⊕ PreferredMethod :=
      if method = .expRef then
        match getReferenceData (preferredName molecule) with
        | some r => Sum.inl (completeReference r molecule.molecularWeight)
        | none => Sum.inr .auto
      else Sum.inr method
    match afterRef with
    | Sum.inl hRef => some hRef
    | Sum.inr meth =>
      if meth = .marcus then some (calculateMarcus molecule)
      else if meth = .costas then some (calculateCostas ad molecule 298.15)
      else
        match fragmentMolecule ad molecule.smiles with
        | none => none
        | some fragments =>
          if meth = .stefanis then some (calculateStefanis fragments molecule.molecularWeight)
          else if meth = .vanKrevelen then
            some (calculateVanKrevelen fragments molecule.molecularWeight)
          else some (calculateVanKrevelen fragments molecule.molecularWeight)

end HansenCalculator

open HansenCalculator

/-- Rounding at k digits is idempotent. -/
theorem toFixed_idem (k : ℕ) (x : ℝ) : toFixed k (toFixed k x) = toFixed k x := by
  have h10 : ((10 : ℝ) ^ k) ≠ 0 := by positivity
  unfold toFixed
  rw [div_mul_cancel₀ _ h10, round_intCast]

/-- Rounding at k digits fixes zero. -/
theorem toFixed_zero (k : ℕ) : toFixed k 0 = 0 := by
  simp [toFixed]

/-- Rounding at k digits is monotone. -/
theorem toFixed_mono (k : ℕ) {x y : ℝ} (hxy : x ≤ y) : toFixed k x ≤ toFixed k y := by
  have h10 : (0 : ℝ) < 10 ^ k := by positivity
  have hr : round (x * 10 ^ k) ≤ round (y * 10 ^ k) := by
    rw [round_eq, round_eq]
    exact Int.floor_mono (by nlinarith)
  unfold toFixed
  exact (div_le_div_iff_of_pos_right h10).mpr (by exact_mod_cast hr)

/-- The accumulator folds of the aggregation methods compute sums. -/
theorem foldl_add_sum {α : Type} (g : α → ℝ) (l : List α) (a : ℝ) :
    l.foldl (fun acc f => acc + g f) a = a + (l.map g).sum := by
  induction l generalizing a with
  | nil => simp
  | cons x xs ih => simp [ih, add_assoc]

/-- A Hansen record all of whose numeric fields are fixed points of
rounding to one decimal digit. -/
def Quantized1 (h : HansenParameters) : Prop :=
  toFixed 1 h.deltaD = h.deltaD ∧ toFixed 1 h.deltaP = h.deltaP ∧
    toFixed 1 h.deltaH = h.deltaH ∧ h.deltaT.map (toFixed 1) = h.deltaT ∧
    h.deltaV.map (toFixed 1) = h.deltaV ∧ h.molarVolume.map (toFixed 1) = h.molarVolume

/-- Van Krevelen results are quantized at one decimal digit. -/
theorem quantized_vanKrevelen (frs : List Fragment) (mw : ℝ) :
    Quantized1 (calculateVanKrevelen frs mw) := by
  unfold Quantized1 calculateVanKrevelen calculateDerivedProperties
  simp [toFixed_idem]

/-- Stefanis results are quantized at one decimal digit. -/
theorem quantized_stefanis (frs : List Fragment) (mw : ℝ) :
    Quantized1 (calculateStefanis frs mw) := by
  unfold Quantized1 calculateStefanis calculateDerivedProperties
  simp [toFixed_idem]

/-- Marcus results are quantized at one decimal digit. -/
theorem quantized_marcus (m : Molecule) : Quantized1 (calculateMarcus m) := by
  unfold Quantized1 calculateMarcus calculateDerivedProperties
  simp [toFixed_idem]

/-- Costas results are quantized at one decimal digit. -/
theorem quantized_costas (ad : RDKitAdapter) (m : Molecule) (temp : ℝ) :
    Quantized1 (calculateCostas ad m temp) := by
  unfold calculateCostas
  cases hf : fragmentMolecule ad m.smiles with
  | none =>
    unfold Quantized1
    simp [toFixed_zero]
  | some frs =>
    unfold Quantized1 calculateDerivedProperties
    simp [toFixed_idem]

/-- Invariant of the inner matching loop: every accepted match has all
its atoms inside the consumed set, and accepted matches pairwise share
no atom index; both are preserved by processing further matches. -/
theorem processGroup_inv (ms : List SubMatch) (cnt : ℕ) (accepted : List SubMatch)
    (consumed : Finset ℕ)
    (hsub : ∀ x ∈ accepted, ∀ i ∈ x.atoms, i ∈ consumed)
    (hpw : accepted.Pairwise fun x y => ∀ i ∈ x.atoms, i ∉ y.atoms) :
    (∀ x ∈ (processGroup ms (cnt, accepted, consumed)).2.1, ∀ i ∈ x.atoms,
        i ∈ (processGroup ms (cnt, accepted, consumed)).2.2) ∧
      (processGroup ms (cnt, accepted, consumed)).2.1.Pairwise
        (fun x y => ∀ i ∈ x.atoms, i ∉ y.atoms) := by
  induction ms generalizing cnt accepted consumed with
  | nil => simpa only [processGroup] using ⟨hsub, hpw⟩
  | cons m rest ih =>
    simp only [processGroup]
    split
    · exact ih _ _ _ hsub hpw
    · rename_i hov
      apply ih
      · intro x hx i hi
        rcases List.mem_append.mp hx with h | h
        · exact Finset.mem_union_left _ (hsub x h i hi)
        · rw [List.mem_singleton] at h
          subst h
          exact Finset.mem_union_right _ (List.mem_toFinset.mpr hi)
      · rw [List.pairwise_append]
        refine ⟨hpw, List.pairwise_singleton _ _, ?_⟩
        intro x hx y hy i hix hiy
        rw [List.mem_singleton] at hy
        subst hy
        exact hov (List.any_eq_true.mpr ⟨i, hiy, by simpa using hsub x hx i hix⟩)

/-- The whole-pass version of the greedy invariant, threading the
accepted ghost list and the consumed set through every group. -/
theorem runFragmentation_inv (matchesFor : String → Option (List SubMatch))
    (groups : List GroupContribution) (frs : List Fragment) (accepted : List SubMatch)
    (consumed : Finset ℕ)
    (hsub : ∀ x ∈ accepted, ∀ i ∈ x.atoms, i ∈ consumed)
    (hpw : accepted.Pairwise fun x y => ∀ i ∈ x.atoms, i ∉ y.atoms) :
    (∀ x ∈ (runFragmentation matchesFor groups (frs, accepted, consumed)).2.1, ∀ i ∈ x.atoms,
        i ∈ (runFragmentation matchesFor groups (frs, accepted, consumed)).2.2) ∧
      (runFragmentation matchesFor groups (frs, accepted, consumed)).2.1.Pairwise
        (fun x y => ∀ i ∈ x.atoms, i ∉ y.atoms) := by
  induction groups generalizing frs accepted consumed with
  | nil => simpa only [runFragmentation] using ⟨hsub, hpw⟩
  | cons g rest ih =>
    simp only [runFragmentation]
    cases hm : matchesFor g.smarts with
    | none => exact ih _ _ _ hsub hpw
    | some ms =>
      have h := processGroup_inv ms 0 accepted consumed hsub hpw
      exact ih _ _ _ h.1 h.2

/-- Claim C4: over the whole greedy fragmentation pass, with groups in
descending priority and matches rejected whole on any overlap, no atom
index is claimed by two accepted matches: the accepted matches of any
molecule, under any adapter behaviour, are pairwise disjoint as
atom-index sets. -/
theorem C4_greedy_fragmentation_disjoint (ad : RDKitAdapter) (smiles : String) :
    (acceptedMatches ad smiles).Pairwise (fun x y => ∀ i ∈ x.atoms, i ∉ y.atoms) :=
  (runFragmentation_inv (ad.substructMatches smiles) sortedGroups [] [] ∅
    (by simp) (by simp)).2

/-- Concrete sample records for the distance metric claims. -/
def hspA : HansenParameters :=
  { deltaD := 5, deltaP := 6, deltaH := 7,
    deltaT := none, deltaV := none, molarVolume := none, method := .manual }

def hspB : HansenParameters :=
  { deltaD := 5, deltaP := 5, deltaH := 6,
    deltaT := none, deltaV := none, molarVolume := none, method := .manual }

/-- Claim C2 counterexample: for the triples (5,6,7) and (5,5,6) the raw
Hansen distance is sqrt 2, but calculateDistance returns its two-decimal
rounding 1.41, so the returned value is not equal to the square root the
claim specifies. -/
theorem C2_counterexample :
    calculateDistance hspA hspB ≠
      Real.sqrt (4 * (hspA.deltaD - hspB.deltaD) ^ 2 + (hspA.deltaP - hspB.deltaP) ^ 2 +
        (hspA.deltaH - hspB.deltaH) ^ 2) := by
  have harg : 4 * (hspA.deltaD - hspB.deltaD) ^ 2 + (hspA.deltaP - hspB.deltaP) ^ 2 +
      (hspA.deltaH - hspB.deltaH) ^ 2 = 2 := by
    norm_num [hspA, hspB]
  have hlo : (1.405 : ℝ) ≤ Real.sqrt 2 := by
    rw [Real.le_sqrt (by norm_num) (by norm_num)]
    norm_num
  have hhi : Real.sqrt 2 < 1.415 := by
    rw [Real.sqrt_lt' (by norm_num)]
    norm_num
  have hround : round (Real.sqrt 2 * 10 ^ 2) = 141 := by
    rw [round_eq, Int.floor_eq_iff]
    constructor <;> push_cast <;> nlinarith
  have hdist : calculateDistance hspA hspB = 141 / 100 := by
    show toFixed 2 (Real.sqrt (4 * (hspA.deltaD - hspB.deltaD) ^ 2 +
      (hspA.deltaP - hspB.deltaP) ^ 2 + (hspA.deltaH - hspB.deltaH) ^ 2)) = 141 / 100
    rw [harg]
    unfold toFixed
    rw [hround]
    norm_num
  rw [harg, hdist]
  intro h
  have h2 := Real.sq_sqrt (by norm_num : (0:ℝ) ≤ 2)
  rw [← h] at h2
  norm_num at h2

/-- Claim C2 (amended): calculateDistance returns the Hansen distance
sqrt(4 (dD)^2 + (dP)^2 + (dH)^2) rounded to two decimal places; in
particular, when the two triples agree in deltaP and deltaH and differ
by exactly 1.0 in deltaD, the returned distance is exactly 2.0. -/
theorem C2_distance_formula (a b : HansenParameters) :
    calculateDistance a b =
      toFixed 2 (Real.sqrt (4 * (a.deltaD - b.deltaD) ^ 2 + (a.deltaP - b.deltaP) ^ 2 +
        (a.deltaH - b.deltaH) ^ 2)) ∧
    (a.deltaD - b.deltaD = 1 → a.deltaP = b.deltaP → a.deltaH = b.deltaH →
      calculateDistance a b = 2) := by
  constructor
  · rfl
  · intro hD hP hH
    show toFixed 2 (Real.sqrt (4 * (a.deltaD - b.deltaD) ^ 2 + (a.deltaP - b.deltaP) ^ 2 +
      (a.deltaH - b.deltaH) ^ 2)) = 2
    rw [hD, hP, hH]
    have harg : 4 * (1:ℝ) ^ 2 + (b.deltaP - b.deltaP) ^ 2 + (b.deltaH - b.deltaH) ^ 2 = 2 ^ 2 := by
      ring
    rw [harg, Real.sqrt_sq (by norm_num)]
    unfold toFixed
    rw [show ((2:ℝ) * 10 ^ 2) = ((200 : ℤ) : ℝ) by norm_num, round_intCast]
    norm_num

/-- Concrete pair realizing the exact-2.0 case of claim C2. -/
def hspC : HansenParameters :=
  { deltaD := 16.8, deltaP := 5, deltaH := 5,
    deltaT := none, deltaV := none, molarVolume := none, method := .manual }

def hspD : HansenParameters :=
  { deltaD := 15.8, deltaP := 5, deltaH := 5,
    deltaT := none, deltaV := none, molarVolume := none, method := .manual }

/-- Witness for claim C2: the hypotheses of the particular case hold at
(16.8, 5, 5) and (15.8, 5, 5), and the computed distance is exactly 2. -/
theorem C2_distance_formula_witness :
    hspC.deltaD - hspD.deltaD = 1 ∧ hspC.deltaP = hspD.deltaP ∧ hspC.deltaH = hspD.deltaH ∧
      calculateDistance hspC hspD = 2 :=
  ⟨by norm_num [hspC, hspD], rfl, rfl,
    (C2_distance_formula hspC hspD).2 (by norm_num [hspC, hspD]) rfl rfl⟩

/-- Claim C3 (amended): the distance of a record to itself is 0 and the
metric is symmetric; but because the result is rounded to two decimals,
distance zero is equivalent to the raw distance lying below the rounding
threshold 1/200, not to equality of the triples. -/
theorem C3_distance_zero_and_symmetry (a b : HansenParameters) :
    calculateDistance a a = 0 ∧
    calculateDistance a b = calculateDistance b a ∧
    (calculateDistance a b = 0 ↔
      Real.sqrt (4 * (a.deltaD - b.deltaD) ^ 2 + (a.deltaP - b.deltaP) ^ 2 +
        (a.deltaH - b.deltaH) ^ 2) < 1 / 200) := by
  refine ⟨?_, ?_, ?_⟩
  · show toFixed 2 (Real.sqrt (4 * (a.deltaD - a.deltaD) ^ 2 + (a.deltaP - a.deltaP) ^ 2 +
      (a.deltaH - a.deltaH) ^ 2)) = 0
    rw [show 4 * (a.deltaD - a.deltaD) ^ 2 + (a.deltaP - a.deltaP) ^ 2 +
      (a.deltaH - a.deltaH) ^ 2 = 0 by ring, Real.sqrt_zero, toFixed_zero]
  · show toFixed 2 (Real.sqrt (4 * (a.deltaD - b.deltaD) ^ 2 + (a.deltaP - b.deltaP) ^ 2 +
        (a.deltaH - b.deltaH) ^ 2)) =
      toFixed 2 (Real.sqrt (4 * (b.deltaD - a.deltaD) ^ 2 + (b.deltaP - a.deltaP) ^ 2 +
        (b.deltaH - a.deltaH) ^ 2))
    rw [show 4 * (a.deltaD - b.deltaD) ^ 2 + (a.deltaP - b.deltaP) ^ 2 +
        (a.deltaH - b.deltaH) ^ 2 = 4 * (b.deltaD - a.deltaD) ^ 2 + (b.deltaP - a.deltaP) ^ 2 +
        (b.deltaH - a.deltaH) ^ 2 by ring]
  · have hnn : (0:ℝ) ≤ Real.sqrt (4 * (a.deltaD - b.deltaD) ^ 2 + (a.deltaP - b.deltaP) ^ 2 +
        (a.deltaH - b.deltaH) ^ 2) := Real.sqrt_nonneg _
    show toFixed 2 (Real.sqrt (4 * (a.deltaD - b.deltaD) ^ 2 + (a.deltaP - b.deltaP) ^ 2 +
        (a.deltaH - b.deltaH) ^ 2)) = 0 ↔ _
    set s := Real.sqrt (4 * (a.deltaD - b.deltaD) ^ 2 + (a.deltaP - b.deltaP) ^ 2 +
      (a.deltaH - b.deltaH) ^ 2) with hs
    unfold toFixed
    have h100 : s * 10 ^ 2 = s * 100 := by norm_num
    constructor
    · intro h
      have hz : round (s * 10 ^ 2) = 0 := by
        rw [div_eq_zero_iff] at h
        rcases h with h0 | h0
        · exact_mod_cast h0
        · norm_num at h0
      rw [round_eq, Int.floor_eq_zero_iff, Set.mem_Ico, h100] at hz
      linarith [hz.2]
    · intro h
      have hz : round (s * 10 ^ 2) = 0 := by
        rw [round_eq, Int.floor_eq_zero_iff, Set.mem_Ico, h100]
        constructor
        · linarith
        · linarith
      rw [hz]
      norm_num

/-- Concrete pair realizing the C3 counterexample: triples differing by
0.001 in deltaD only. -/
def hspTiny : HansenParameters :=
  { deltaD := 1 / 1000, deltaP := 0, deltaH := 0,
    deltaT := none, deltaV := none, molarVolume := none, method := .manual }

def hspNull : HansenParameters :=
  { deltaD := 0, deltaP := 0, deltaH := 0,
    deltaT := none, deltaV := none, molarVolume := none, method := .manual }

/-- Claim C3 counterexample: the triples (0.001, 0, 0) and (0, 0, 0) are
not componentwise equal, yet calculateDistance returns 0 because the raw
distance 0.002 is rounded to two decimals. -/
theorem C3_counterexample :
    calculateDistance hspTiny hspNull = 0 ∧ hspTiny.deltaD ≠ hspNull.deltaD := by
  constructor
  · show toFixed 2 (Real.sqrt (4 * (hspTiny.deltaD - hspNull.deltaD) ^ 2 +
      (hspTiny.deltaP - hspNull.deltaP) ^ 2 + (hspTiny.deltaH - hspNull.deltaH) ^ 2)) = 0
    rw [show 4 * (hspTiny.deltaD - hspNull.deltaD) ^ 2 +
        (hspTiny.deltaP - hspNull.deltaP) ^ 2 + (hspTiny.deltaH - hspNull.deltaH) ^ 2 =
        ((1:ℝ) / 500) ^ 2 by norm_num [hspTiny, hspNull],
      Real.sqrt_sq (by norm_num)]
    unfold toFixed
    rw [round_eq, show (1:ℝ) / 500 * 10 ^ 2 + 1 / 2 = 7 / 10 by norm_num,
      show ⌊(7:ℝ) / 10⌋ = 0 by norm_num]
    norm_num
  · norm_num [hspTiny, hspNull]

/-- Claim C10: every numeric output of the engine is quantized by
rounding before being returned: each method result has deltaD, deltaP,
deltaH and the derived deltaT, deltaV, molarVolume fixed under rounding
to one decimal place, and calculateDistance is fixed under rounding to
two decimal places. -/
theorem C10_outputs_quantized :
    (∀ frs mw, Quantized1 (calculateVanKrevelen frs mw)) ∧
    (∀ frs mw, Quantized1 (calculateStefanis frs mw)) ∧
    (∀ m, Quantized1 (calculateMarcus m)) ∧
    (∀ ad m temp, Quantized1 (calculateCostas ad m temp)) ∧
    (∀ a b, toFixed 2 (calculateDistance a b) = calculateDistance a b) :=
  ⟨quantized_vanKrevelen, quantized_stefanis, quantized_marcus, quantized_costas,
    fun _ _ => toFixed_idem 2 _⟩

/-- Claim C9: the Marcus weight-ratio factor min(mw/200, 1.5) never
exceeds 1.5; deltaD is non-decreasing and deltaP, deltaH non-increasing
in the molecular weight, and the three deltas are constant from
molecular weight 300 on. -/
theorem C9_marcus_weight_monotonicity (m1 m2 : Molecule)
    (h1 : 0 < m1.molecularWeight) (h12 : m1.molecularWeight ≤ m2.molecularWeight) :
    min (m2.molecularWeight / 200) 1.5 ≤ 1.5 ∧
    (calculateMarcus m1).deltaD ≤ (calculateMarcus m2).deltaD ∧
    (calculateMarcus m2).deltaP ≤ (calculateMarcus m1).deltaP ∧
    (calculateMarcus m2).deltaH ≤ (calculateMarcus m1).deltaH ∧
    (300 ≤ m1.molecularWeight →
      (calculateMarcus m1).deltaD = (calculateMarcus m2).deltaD ∧
      (calculateMarcus m1).deltaP = (calculateMarcus m2).deltaP ∧
      (calculateMarcus m1).deltaH = (calculateMarcus m2).deltaH) := by
  have hf1pos : (0:ℝ) < min (m1.molecularWeight / 200) 1.5 :=
    lt_min (by positivity) (by norm_num)
  have hmono : min (m1.molecularWeight / 200) 1.5 ≤ min (m2.molecularWeight / 200) 1.5 :=
    min_le_min (by linarith) le_rfl
  have hf2pos : (0:ℝ) < min (m2.molecularWeight / 200) 1.5 := lt_of_lt_of_le hf1pos hmono
  have hs1pos : (0:ℝ) < Real.sqrt (min (m1.molecularWeight / 200) 1.5) :=
    Real.sqrt_pos.mpr hf1pos
  have hsmono : Real.sqrt (min (m1.molecularWeight / 200) 1.5) ≤
      Real.sqrt (min (m2.molecularWeight / 200) 1.5) := Real.sqrt_le_sqrt hmono
  refine ⟨min_le_right _ _, ?_, ?_, ?_, ?_⟩
  · show toFixed 1 (17.0 * min (m1.molecularWeight / 200) 1.5) ≤
      toFixed 1 (17.0 * min (m2.molecularWeight / 200) 1.5)
    exact toFixed_mono 1 (by nlinarith)
  · show toFixed 1 (25.0 / min (m2.molecularWeight / 200) 1.5) ≤
      toFixed 1 (25.0 / min (m1.molecularWeight / 200) 1.5)
    refine toFixed_mono 1 ?_
    gcongr
  · show toFixed 1 (15.0 / Real.sqrt (min (m2.molecularWeight / 200) 1.5)) ≤
      toFixed 1 (15.0 / Real.sqrt (min (m1.molecularWeight / 200) 1.5))
    refine toFixed_mono 1 ?_
    gcongr
  · intro h300
    have e1 : min (m1.molecularWeight / 200) 1.5 = 1.5 := min_eq_right (by linarith)
    have e2 : min (m2.molecularWeight / 200) 1.5 = 1.5 := min_eq_right (by linarith)
    refine ⟨?_, ?_, ?_⟩
    · show toFixed 1 (17.0 * min (m1.molecularWeight / 200) 1.5) =
        toFixed 1 (17.0 * min (m2.molecularWeight / 200) 1.5)
      rw [e1, e2]
    · show toFixed 1 (25.0 / min (m1.molecularWeight / 200) 1.5) =
        toFixed 1 (25.0 / min (m2.molecularWeight / 200) 1.5)
      rw [e1, e2]
    · show toFixed 1 (15.0 / Real.sqrt (min (m1.molecularWeight / 200) 1.5)) =
        toFixed 1 (15.0 / Real.sqrt (min (m2.molecularWeight / 200) 1.5))
      rw [e1, e2]

/-- Concrete molecules at and above the Marcus saturation weight. -/
def m300 : Molecule :=
  { name := "salt300", englishName := none, smiles := "[Na+].[Cl-]",
    molecularWeight := 300, hsp := none }

def m400 : Molecule :=
  { name := "salt400", englishName := none, smiles := "[Na+].[Cl-]",
    molecularWeight := 400, hsp := none }

/-- Witness for claim C9: the hypotheses hold at weights 300 and 400,
and all three Marcus deltas coincide there. -/
theorem C9_marcus_weight_monotonicity_witness :
    (0:ℝ) < m300.molecularWeight ∧ m300.molecularWeight ≤ m400.molecularWeight ∧
    ((calculateMarcus m300).deltaD = (calculateMarcus m400).deltaD ∧
      (calculateMarcus m300).deltaP = (calculateMarcus m400).deltaP ∧
      (calculateMarcus m300).deltaH = (calculateMarcus m400).deltaH) :=
  ⟨by norm_num [m300], by norm_num [m300, m400],
    (C9_marcus_weight_monotonicity m300 m400 (by norm_num [m300])
      (by norm_num [m300, m400])).2.2.2.2 (by norm_num [m300])⟩

/-- Adapter that fails to parse everything: the degenerate external
boundary used by several witnesses. -/
def trivialAdapter : RDKitAdapter :=
  { parse := fun _ => none, substructMatches := fun _ _ => none }

/-- Molecule that already carries a computed Van Krevelen record. -/
def presetHSP : HansenParameters :=
  { deltaD := 16.8, deltaP := 5.7, deltaH := 8.0,
    deltaT := none, deltaV := none, molarVolume := none, method := .vanKrevelen }

def presetMolecule : Molecule :=
  { name := "thf", englishName := none, smiles := "C1CCOC1",
    molecularWeight := 72.11, hsp := some presetHSP }

/-- Claim C7 (amended): calculate with preferred method Manual returns
the existing HSP record wholly unchanged, method tag included (it does
not retag to Manual); only when no record exists does it return the
zeroed record tagged Manual. -/
theorem C7_manual_keeps_existing (ad : RDKitAdapter) (m : Molecule) :
    (∀ h0, m.hsp = some h0 → calculate ad m .manual = some h0) ∧
    (m.hsp = none → calculate ad m .manual = some zeroManual) := by
  constructor
  · intro h0 hh
    simp [calculate, hh]
  · intro hh
    simp [calculate, hh]

/-- Witness for claim C7: the preset molecule keeps its record under a
Manual request, and a record-free molecule gets the zeroed Manual
placeholder. -/
theorem C7_manual_keeps_existing_witness :
    presetMolecule.hsp = some presetHSP ∧
    calculate trivialAdapter presetMolecule .manual = some presetHSP :=
  ⟨rfl, (C7_manual_keeps_existing trivialAdapter presetMolecule).1 presetHSP rfl⟩

/-- Claim C7 counterexample: the claim says the returned record has
method tag Manual; on a molecule whose stored record is tagged
VanKrevelen, calculate with Manual returns the record still tagged
VanKrevelen. -/
theorem C7_counterexample :
    (calculate trivialAdapter presetMolecule .manual).map (fun x => x.method) =
      some MethodTag.vanKrevelen ∧ MethodTag.vanKrevelen ≠ MethodTag.manual := by
  constructor
  · simp [calculate, presetMolecule, presetHSP]
  · exact fun h => MethodTag.noConfusion h

/-- Normalizing volume of the Van Krevelen aggregation, stated as a
sum: the fragment volume total, or the molecular weight when that total
is at most the threshold 5 of the source. -/
def vkhVolume (frs : List Fragment) (mw : ℝ) : ℝ :=
  let sV := (frs.map fun f => f.group.vkh.V * (f.count : ℝ)).sum
  if sV ≤ 5 then mw else sV

/-- Claim C8 (amended): the Van Krevelen aggregation returns the three
formulas of the spec rounded to one decimal place, normalized by the
fragment volume total with the molecular-weight fallback at the
threshold, and the normalizing volume used is strictly positive
whenever mw is. -/
theorem C8_vanKrevelen_aggregation (frs : List Fragment) (mw : ℝ)
    (hne : frs ≠ []) (hmw : 0 < mw) :
    (calculateVanKrevelen frs mw).deltaD =
      toFixed 1 ((frs.map fun f => f.group.vkh.Fd * (f.count : ℝ)).sum / vkhVolume frs mw) ∧
    (calculateVanKrevelen frs mw).deltaP =
      toFixed 1 (Real.sqrt ((frs.map fun f => f.group.vkh.Fp ^ 2 * (f.count : ℝ)).sum) /
        vkhVolume frs mw) ∧
    (calculateVanKrevelen frs mw).deltaH =
      toFixed 1 (Real.sqrt ((frs.map fun f => f.group.vkh.Eh * (f.count : ℝ)).sum /
        vkhVolume frs mw)) ∧
    0 < vkhVolume frs mw := by
  refine ⟨?_, ?_, ?_, ?_⟩
  · unfold calculateVanKrevelen vkhVolume
    simp only [foldl_add_sum, zero_add]
  · unfold calculateVanKrevelen vkhVolume
    simp only [foldl_add_sum, zero_add]
  · unfold calculateVanKrevelen vkhVolume
    simp only [foldl_add_sum, zero_add]
  · unfold vkhVolume
    by_cases hle : (frs.map fun f => f.group.vkh.V * (f.count : ℝ)).sum ≤ 5
    · rw [if_pos hle]
      exact hmw
    · rw [if_neg hle]
      push_neg at hle
      linarith

/-- Single-alcohol fragment list for the C8 witness. -/
def frsC8 : List Fragment := [⟨grpAlcohol, 1⟩]

/-- Witness for claim C8: the hypotheses hold for one alcohol group at
molecular weight 50, and the normalizing volume used is positive. -/
theorem C8_vanKrevelen_aggregation_witness :
    frsC8 ≠ [] ∧ (0:ℝ) < 50 ∧ 0 < vkhVolume frsC8 50 :=
  ⟨by simp [frsC8], by norm_num,
    (C8_vanKrevelen_aggregation frsC8 50 (by simp [frsC8]) (by norm_num)).2.2.2⟩

/-- Two methyl groups: fragment list for the C8 counterexample. -/
def frsC8x : List Fragment := [⟨grpCH3, 2⟩]

/-- Claim C8 counterexample: for two methyl groups the claimed formula
value is 840/67, but the returned deltaD is its one-decimal rounding
12.5, so the returned value is not equal to the formula value. -/
theorem C8_counterexample :
    vkhVolume frsC8x 100 = 67 ∧
    (frsC8x.map fun f => f.group.vkh.Fd * (f.count : ℝ)).sum / vkhVolume frsC8x 100 =
      840 / 67 ∧
    (calculateVanKrevelen frsC8x 100).deltaD = 25 / 2 ∧
    ((25:ℝ) / 2) ≠ 840 / 67 := by
  have hV : vkhVolume frsC8x 100 = 67 := by
    unfold vkhVolume
    rw [show ((frsC8x.map fun f => f.group.vkh.V * (f.count : ℝ)).sum) = 67 by
      simp [frsC8x, grpCH3]; norm_num]
    norm_num
  have hFd : ((frsC8x.map fun f => f.group.vkh.Fd * (f.count : ℝ)).sum) = 840 := by
    simp [frsC8x, grpCH3]; norm_num
  refine ⟨hV, by rw [hFd, hV], ?_, by norm_num⟩
  have hD : (calculateVanKrevelen frsC8x 100).deltaD =
      toFixed 1 ((frsC8x.map fun f => f.group.vkh.Fd * (f.count : ℝ)).sum /
        vkhVolume frsC8x 100) := by
    unfold calculateVanKrevelen vkhVolume
    simp only [foldl_add_sum, zero_add]
  rw [hD, hFd, hV]
  unfold toFixed
  rw [round_eq, show (840:ℝ) / 67 * 10 ^ 1 + 1 / 2 = 16867 / 134 by norm_num,
    show ⌊(16867:ℝ) / 134⌋ = 125 by norm_num]
  norm_num

/-- Lowercasing and trimming fixes the already lowercase, untrimmed key
ethanol; stated via the Batteries characterization of String.map and one
unfolding of the trimming loops. -/
theorem toLowerTrim_ethanol : "ethanol".toLower.trim = "ethanol" := by
  rw [show "ethanol".toLower = "ethanol" by rw [String.toLower, String.map_eq]; decide]
  simp only [String.trim, String.toSubstring, Substring.trim]
  unfold Substring.takeWhileAux Substring.takeRightWhileAux
  decide

/-- The reference table resolves ethanol to the experimental entry. -/
theorem getReferenceData_ethanol :
    getReferenceData "ethanol" = some (refEntry 15.8 8.8 19.4) := by
  unfold getReferenceData
  rw [toLowerTrim_ethanol]
  rfl

/-- Claim C1: whenever the preferred name (englishName, else name) of a
molecule resolves to a reference entry, processMolecule attaches that
entry as the authoritative result with method tag Experimental (Ref),
whatever the adapter (and hence every predictive method) computes. -/
theorem C1_reference_always_wins (ad : RDKitAdapter) (m : Molecule) (r : HansenParameters)
    (h : getReferenceData (preferredName m) = some r) :
    (processMolecule ad m).hsp.map (fun x => (x.deltaD, x.deltaP, x.deltaH, x.method)) =
      some (r.deltaD, r.deltaP, r.deltaH, MethodTag.expRef) := by
  unfold processMolecule
  rw [h]
  simp [completeReference]

/-- Sample ethanol molecule record: no stored HSP, english name absent,
display name ethanol. -/
def ethanolMolecule : Molecule :=
  { name := "ethanol", englishName := none, smiles := "CCO",
    molecularWeight := 46.07, hsp := none }

/-- Witness for claim C1: the preferred name of the ethanol molecule
resolves to the experimental entry, and processMolecule attaches the
triple 15.8, 8.8, 19.4 with tag Experimental (Ref). -/
theorem C1_reference_always_wins_witness :
    getReferenceData (preferredName ethanolMolecule) = some (refEntry 15.8 8.8 19.4) ∧
    (processMolecule trivialAdapter ethanolMolecule).hsp.map
        (fun x => (x.deltaD, x.deltaP, x.deltaH, x.method)) =
      some (15.8, 8.8, 19.4, MethodTag.expRef) :=
  ⟨getReferenceData_ethanol,
    C1_reference_always_wins trivialAdapter ethanolMolecule (refEntry 15.8 8.8 19.4)
      getReferenceData_ethanol⟩

/-- Lowercasing and trimming fixes the name of the sample molecule with
no reference entry. -/
theorem toLowerTrim_unobtainium : "unobtainium".toLower.trim = "unobtainium" := by
  rw [show "unobtainium".toLower = "unobtainium" by rw [String.toLower, String.map_eq]; decide]
  simp only [String.trim, String.toSubstring, Substring.trim]
  unfold Substring.takeWhileAux Substring.takeRightWhileAux
  decide

/-- The reference table has no entry named unobtainium. -/
theorem getReferenceData_unobtainium : getReferenceData "unobtainium" = none := by
  unfold getReferenceData
  rw [toLowerTrim_unobtainium]
  rfl

/-- The zeroed Costas record the source returns when fragmentation
fails; stated once for reuse in the C6 statements. -/
def zeroCostas : HansenParameters :=
  { deltaD := 0, deltaP := 0, deltaH := 0,
    deltaT := none, deltaV := none, molarVolume := none, method := .costas }

/-- Claim C6 (amended): with an absent (empty) or unparseable
connectivity string, the group-contribution and energy methods return
null, but the equation-of-state method returns the zeroed record tagged
Costas instead of null; consequently, when no reference entry exists and
the ionic heuristic does not fire, processMolecule attaches that zeroed
record with method tag Costas, not Manual (the Manual fallback of the
selector is unreachable). -/
theorem C6_unavailable_fallback (ad : RDKitAdapter) (m : Molecule)
    (h : m.smiles = "" ∨ ad.parse m.smiles = none) :
    fragmentMolecule ad m.smiles = none ∧
    calculate ad m .vanKrevelen = none ∧
    calculate ad m .stefanis = none ∧
    calculate ad m .costas = some zeroCostas ∧
    (getReferenceData (preferredName m) = none → marcusApplicable m.smiles = false →
      (processMolecule ad m).hsp = some zeroCostas) := by
  have hfrag : fragmentMolecule ad m.smiles = none := by
    unfold fragmentMolecule
    by_cases hs : m.smiles = ""
    · rw [if_pos hs]
    · rw [if_neg hs]
      rcases h with h | h
      · exact absurd h hs
      · rw [h]
  refine ⟨hfrag, ?_, ?_, ?_, ?_⟩
  · simp [calculate, hfrag]
  · simp [calculate, hfrag]
  · simp [calculate, calculateCostas, hfrag, zeroCostas]
  · intro href hmarc
    simp [processMolecule, href, hfrag, hmarc, calculateCostas, zeroCostas]

/-- Sample molecule with empty connectivity string and no reference
entry. -/
def unknownMolecule : Molecule :=
  { name := "unobtainium", englishName := none, smiles := "",
    molecularWeight := 100, hsp := none }

/-- Standalone evaluation of the selector on the unknown molecule: the
attached record is the zeroed Costas record. -/
theorem processMolecule_unknownMolecule :
    (processMolecule trivialAdapter unknownMolecule).hsp = some zeroCostas := by
  have hfrag : fragmentMolecule trivialAdapter "" = none := by
    unfold fragmentMolecule
    rw [if_pos rfl]
  simp [processMolecule, preferredName, unknownMolecule, getReferenceData_unobtainium,
    hfrag, calculateCostas, zeroCostas, marcusApplicable]
  rfl

/-- Witness for claim C6: at the unknown molecule with empty SMILES, the
fragmenter and the group-contribution method return none and the
selector attaches the zeroed Costas record. -/
theorem C6_unavailable_fallback_witness :
    unknownMolecule.smiles = "" ∧
    fragmentMolecule trivialAdapter unknownMolecule.smiles = none ∧
    calculate trivialAdapter unknownMolecule .vanKrevelen = none ∧
    (processMolecule trivialAdapter unknownMolecule).hsp = some zeroCostas := by
  refine ⟨rfl, ?_, ?_, ?_⟩
  · exact (C6_unavailable_fallback trivialAdapter unknownMolecule (Or.inl rfl)).1
  · exact (C6_unavailable_fallback trivialAdapter unknownMolecule (Or.inl rfl)).2.1
  · exact (C6_unavailable_fallback trivialAdapter unknownMolecule (Or.inl rfl)).2.2.2.2
      getReferenceData_unobtainium rfl

/-- Claim C6 counterexample: the record processMolecule attaches for the
unknown molecule carries method tag Costas, not the Manual tag the claim
specifies. -/
theorem C6_counterexample :
    (processMolecule trivialAdapter unknownMolecule).hsp.map (fun x => x.method) =
      some MethodTag.costas ∧ MethodTag.costas ≠ MethodTag.manual := by
  constructor
  · rw [processMolecule_unknownMolecule]
    rfl
  · exact fun h => MethodTag.noConfusion h

/-- Adapter producing one alcohol match and two quaternary-carbon
matches on disjoint atoms, and nothing else: a concrete fragmentation
scenario. -/
def adapterC5 : RDKitAdapter :=
  { parse := fun _ => some (),
    substructMatches := fun _ smarts =>
      if smarts = "[OX2H]" then some [⟨[0]⟩]
      else if smarts = "[CH0]" then some [⟨[1]⟩, ⟨[2]⟩] else some [] }

/-- Molecule record for the C5 scenario. -/
def mC5 : Molecule :=
  { name := "synthetic alcohol", englishName := none, smiles := "OCX",
    molecularWeight := 100, hsp := none }

/-- Fragment list the C5 adapter yields: one alcohol and two quaternary
carbons. -/
def frsC5 : List Fragment := [⟨grpAlcohol, 1⟩, ⟨grpCH0, 2⟩]

/-- The greedy pass on the C5 adapter accepts exactly the alcohol group
once and the quaternary carbon twice. -/
theorem fragmentMolecule_adapterC5 : fragmentMolecule adapterC5 mC5.smiles = some frsC5 := by
  rfl

/-- Claim C5 (amended): at T = 298.15 K the Costas method returns
exactly the Van Krevelen deltaD, deltaP, deltaH of the same fragment
list, and the same molarVolume whenever the base molar volume is
nonzero; the derived deltaT and deltaV, however, are recomputed from
the rounded base triple and may differ from the base values by one
rounding step. -/
theorem C5_costas_reduces_to_base (ad : RDKitAdapter) (m : Molecule) (frs : List Fragment)
    (h : fragmentMolecule ad m.smiles = some frs) :
    (calculateCostas ad m 298.15).deltaD = (calculateVanKrevelen frs m.molecularWeight).deltaD ∧
    (calculateCostas ad m 298.15).deltaP = (calculateVanKrevelen frs m.molecularWeight).deltaP ∧
    (calculateCostas ad m 298.15).deltaH = (calculateVanKrevelen frs m.molecularWeight).deltaH ∧
    (∀ v, (calculateVanKrevelen frs m.molecularWeight).molarVolume = some v → v ≠ 0 →
      (calculateCostas ad m 298.15).molarVolume = some v) := by
  have hfac : (1 : ℝ) - 0.0011 * (298.15 - 298.15) = 1 := by norm_num
  have hfac2 : (1 : ℝ) + 0.0011 * (298.15 - 298.15) = 1 := by norm_num
  unfold calculateCostas
  rw [h]
  refine ⟨?_, ?_, ?_, ?_⟩
  · show toFixed 1 ((calculateVanKrevelen frs m.molecularWeight).deltaD *
      (1 - 0.0011 * (298.15 - 298.15))) = (calculateVanKrevelen frs m.molecularWeight).deltaD
    rw [hfac, mul_one]
    exact (quantized_vanKrevelen frs m.molecularWeight).1
  · show toFixed 1 ((calculateVanKrevelen frs m.molecularWeight).deltaP *
      (1 - 0.0011 * (298.15 - 298.15))) = (calculateVanKrevelen frs m.molecularWeight).deltaP
    rw [hfac, mul_one]
    exact (quantized_vanKrevelen frs m.molecularWeight).2.1
  · show toFixed 1 ((calculateVanKrevelen frs m.molecularWeight).deltaH *
      (1 - 0.0011 * (298.15 - 298.15))) = (calculateVanKrevelen frs m.molecularWeight).deltaH
    rw [hfac, mul_one]
    exact (quantized_vanKrevelen frs m.molecularWeight).2.2.1
  · intro v hv hvne
    show some (toFixed 1 ((match (calculateVanKrevelen frs m.molecularWeight).molarVolume with
        | none => (100:ℝ)
        | some v0 => if v0 = 0 then 100 else v0) *
        (1 + 0.0011 * (298.15 - 298.15)))) = some v
    rw [hv, hfac2]
    have hq := (quantized_vanKrevelen frs m.molecularWeight).2.2.2.2.2
    rw [hv] at hq
    have hqv : toFixed 1 v = v := by simpa using hq
    simp [hvne, hqv]

/-- Raw (unrounded) Van Krevelen dispersion component, as a sum. -/
def vkhRawD (frs : List Fragment) (mw : ℝ) : ℝ :=
  (frs.map fun f => f.group.vkh.Fd * (f.count : ℝ)).sum / vkhVolume frs mw

/-- Raw (unrounded) Van Krevelen polar component, as a sum. -/
def vkhRawP (frs : List Fragment) (mw : ℝ) : ℝ :=
  Real.sqrt ((frs.map fun f => f.group.vkh.Fp ^ 2 * (f.count : ℝ)).sum) / vkhVolume frs mw

/-- Raw (unrounded) Van Krevelen hydrogen-bonding component, as a sum. -/
def vkhRawH (frs : List Fragment) (mw : ℝ) : ℝ :=
  Real.sqrt ((frs.map fun f => f.group.vkh.Eh * (f.count : ℝ)).sum / vkhVolume frs mw)

/-- The deltaD field of a Van Krevelen result, in sum form. -/
theorem vkh_deltaD_eq (frs : List Fragment) (mw : ℝ) :
    (calculateVanKrevelen frs mw).deltaD = toFixed 1 (vkhRawD frs mw) := by
  unfold calculateVanKrevelen vkhRawD vkhVolume
  simp only [foldl_add_sum, zero_add]

/-- The deltaP field of a Van Krevelen result, in sum form. -/
theorem vkh_deltaP_eq (frs : List Fragment) (mw : ℝ) :
    (calculateVanKrevelen frs mw).deltaP = toFixed 1 (vkhRawP frs mw) := by
  unfold calculateVanKrevelen vkhRawP vkhVolume
  simp only [foldl_add_sum, zero_add]

/-- The deltaH field of a Van Krevelen result, in sum form. -/
theorem vkh_deltaH_eq (frs : List Fragment) (mw : ℝ) :
    (calculateVanKrevelen frs mw).deltaH = toFixed 1 (vkhRawH frs mw) := by
  unfold calculateVanKrevelen vkhRawH vkhVolume
  simp only [foldl_add_sum, zero_add]

/-- The deltaT field of a Van Krevelen result, in sum form: rounded
square root of the sum of squares of the raw components. -/
theorem vkh_deltaT_eq (frs : List Fragment) (mw : ℝ) :
    (calculateVanKrevelen frs mw).deltaT =
      some (toFixed 1 (Real.sqrt (vkhRawD frs mw * vkhRawD frs mw +
        vkhRawP frs mw * vkhRawP frs mw + vkhRawH frs mw * vkhRawH frs mw))) := by
  unfold calculateVanKrevelen calculateDerivedProperties vkhRawD vkhRawP vkhRawH vkhVolume
  simp only [foldl_add_sum, zero_add]

/-- The molarVolume field of a Van Krevelen result, in sum form. -/
theorem vkh_molarVolume_eq (frs : List Fragment) (mw : ℝ) :
    (calculateVanKrevelen frs mw).molarVolume = some (toFixed 1 (vkhVolume frs mw)) := by
  unfold calculateVanKrevelen calculateDerivedProperties vkhVolume
  simp only [foldl_add_sum, zero_add]

/-- The fragment volume of the C5 list is negative, so the molecular
weight 100 is used as the normalizing volume. -/
theorem vkhVolume_frsC5 : vkhVolume frsC5 100 = 100 := by
  unfold vkhVolume
  rw [show ((frsC5.map fun f => f.group.vkh.V * (f.count : ℝ)).sum) = -28.4 by
    simp [frsC5, grpAlcohol, grpCH0]; norm_num]
  rw [if_pos (by norm_num)]

/-- Raw dispersion component of the C5 list: 140 / 100. -/
theorem vkhRawD_frsC5 : vkhRawD frsC5 100 = 7 / 5 := by
  unfold vkhRawD
  rw [vkhVolume_frsC5, show ((frsC5.map fun f => f.group.vkh.Fd * (f.count : ℝ)).sum) = 140 by
    simp [frsC5, grpAlcohol, grpCH0]; norm_num]
  norm_num

/-- Raw polar component of the C5 list: sqrt 250000 / 100 = 5. -/
theorem vkhRawP_frsC5 : vkhRawP frsC5 100 = 5 := by
  unfold vkhRawP
  rw [vkhVolume_frsC5, show ((frsC5.map fun f => f.group.vkh.Fp ^ 2 * (f.count : ℝ)).sum) =
      250000 by simp [frsC5, grpAlcohol, grpCH0]; norm_num]
  rw [show (250000:ℝ) = 500 ^ 2 by norm_num, Real.sqrt_sq (by norm_num)]
  norm_num

/-- Squared raw hydrogen-bonding component of the C5 list: 200. -/
theorem vkhRawH_sq_frsC5 : vkhRawH frsC5 100 * vkhRawH frsC5 100 = 200 := by
  unfold vkhRawH
  rw [vkhVolume_frsC5, show ((frsC5.map fun f => f.group.vkh.Eh * (f.count : ℝ)).sum) =
      20000 by simp [frsC5, grpAlcohol, grpCH0]]
  rw [Real.mul_self_sqrt (by norm_num)]
  norm_num

/-- Bounds for sqrt 200, pinning its first decimal rounding at 14.1. -/
theorem sqrt200_bounds : (14.05:ℝ) ≤ Real.sqrt 200 ∧ Real.sqrt 200 < 14.15 :=
  ⟨by rw [Real.le_sqrt (by norm_num) (by norm_num)]; norm_num,
   by rw [Real.sqrt_lt' (by norm_num)]; norm_num⟩

/-- The rounded Van Krevelen triple of the C5 list is 1.4, 5, 14.1. -/
theorem vkh_frsC5_triple :
    (calculateVanKrevelen frsC5 100).deltaD = 7 / 5 ∧
    (calculateVanKrevelen frsC5 100).deltaP = 5 ∧
    (calculateVanKrevelen frsC5 100).deltaH = 141 / 10 := by
  refine ⟨?_, ?_, ?_⟩
  · rw [vkh_deltaD_eq, vkhRawD_frsC5]
    unfold toFixed
    rw [show (7:ℝ) / 5 * 10 ^ 1 = ((14:ℤ):ℝ) by norm_num, round_intCast]
    norm_num
  · rw [vkh_deltaP_eq, vkhRawP_frsC5]
    unfold toFixed
    rw [show (5:ℝ) * 10 ^ 1 = ((50:ℤ):ℝ) by norm_num, round_intCast]
    norm_num
  · rw [vkh_deltaH_eq]
    have hH : vkhRawH frsC5 100 = Real.sqrt 200 := by
      unfold vkhRawH
      rw [vkhVolume_frsC5, show ((frsC5.map fun f => f.group.vkh.Eh * (f.count : ℝ)).sum) =
          20000 by simp [frsC5, grpAlcohol, grpCH0]]
      norm_num
    rw [hH]
    unfold toFixed
    rw [round_eq, show ⌊Real.sqrt 200 * 10 ^ 1 + 1 / 2⌋ = 141 by
      rw [Int.floor_eq_iff]
      constructor <;> push_cast <;> nlinarith [sqrt200_bounds.1, sqrt200_bounds.2]]
    norm_num

/-- The Van Krevelen deltaT of the C5 list is 15.1: the raw components
square-sum to 226.96 and sqrt 226.96 rounds up. -/
theorem vkh_frsC5_deltaT : (calculateVanKrevelen frsC5 100).deltaT = some (151 / 10 : ℝ) := by
  rw [vkh_deltaT_eq, vkhRawD_frsC5, vkhRawP_frsC5, vkhRawH_sq_frsC5]
  rw [show (7:ℝ) / 5 * (7 / 5) + 5 * 5 + 200 = 5674 / 25 by norm_num]
  have hlo : (15.05:ℝ) ≤ Real.sqrt (5674 / 25) := by
    rw [Real.le_sqrt (by norm_num) (by norm_num)]
    norm_num
  have hhi : Real.sqrt (5674 / 25) < 15.15 := by
    rw [Real.sqrt_lt' (by norm_num)]
    norm_num
  unfold toFixed
  rw [round_eq, show ⌊Real.sqrt (5674 / 25) * 10 ^ 1 + 1 / 2⌋ = 151 by
    rw [Int.floor_eq_iff]
    constructor <;> push_cast <;> nlinarith]
  norm_num

/-- The Costas deltaT at 298.15 K for the C5 scenario is 15.0: it is
recomputed from the rounded triple 1.4, 5, 14.1 whose square-sum is
225.77, and sqrt 225.77 rounds down. -/
theorem costas_mC5_deltaT : (calculateCostas adapterC5 mC5 298.15).deltaT = some (15 : ℝ) := by
  unfold calculateCostas
  rw [fragmentMolecule_adapterC5]
  show some (toFixed 1 (Real.sqrt
      ((calculateVanKrevelen frsC5 100).deltaD * (1 - 0.0011 * (298.15 - 298.15)) *
        ((calculateVanKrevelen frsC5 100).deltaD * (1 - 0.0011 * (298.15 - 298.15))) +
       (calculateVanKrevelen frsC5 100).deltaP * (1 - 0.0011 * (298.15 - 298.15)) *
        ((calculateVanKrevelen frsC5 100).deltaP * (1 - 0.0011 * (298.15 - 298.15))) +
       (calculateVanKrevelen frsC5 100).deltaH * (1 - 0.0011 * (298.15 - 298.15)) *
        ((calculateVanKrevelen frsC5 100).deltaH * (1 - 0.0011 * (298.15 - 298.15)))))) =
    some (15 : ℝ)
  rw [show (1:ℝ) - 0.0011 * (298.15 - 298.15) = 1 by norm_num]
  simp only [mul_one]
  rw [vkh_frsC5_triple.1, vkh_frsC5_triple.2.1, vkh_frsC5_triple.2.2]
  rw [show (7:ℝ) / 5 * (7 / 5) + 5 * 5 + 141 / 10 * (141 / 10) = 22577 / 100 by norm_num]
  have hlo : (14.95:ℝ) ≤ Real.sqrt (22577 / 100) := by
    rw [Real.le_sqrt (by norm_num) (by norm_num)]
    norm_num
  have hhi : Real.sqrt (22577 / 100) < 15.05 := by
    rw [Real.sqrt_lt' (by norm_num)]
    norm_num
  unfold toFixed
  rw [round_eq, show ⌊Real.sqrt (22577 / 100) * 10 ^ 1 + 1 / 2⌋ = 150 by
    rw [Int.floor_eq_iff]
    constructor <;> push_cast <;> nlinarith]
  norm_num

/-- Claim C5 counterexample: in the C5 scenario the fragmentation
succeeds, yet the derived deltaT of the Costas result at 298.15 K is
15.0 while the Van Krevelen base deltaT is 15.1, so the derived
quantities are not equal as the claim states. -/
theorem C5_counterexample :
    fragmentMolecule adapterC5 mC5.smiles = some frsC5 ∧
    (calculateVanKrevelen frsC5 mC5.molecularWeight).deltaT = some (151 / 10 : ℝ) ∧
    (calculateCostas adapterC5 mC5 298.15).deltaT = some (15 : ℝ) ∧
    (calculateCostas adapterC5 mC5 298.15).deltaT ≠
      (calculateVanKrevelen frsC5 mC5.molecularWeight).deltaT := by
  have hmw : mC5.molecularWeight = (100:ℝ) := rfl
  refine ⟨fragmentMolecule_adapterC5, ?_, costas_mC5_deltaT, ?_⟩
  · rw [hmw]
    exact vkh_frsC5_deltaT
  · rw [hmw, vkh_frsC5_deltaT, costas_mC5_deltaT]
    simp only [ne_eq, Option.some.injEq]
    norm_num

/-- Witness for claim C5: in the concrete C5 scenario the hypothesis of
the amended claim holds, the Costas triple at 298.15 K equals the Van
Krevelen triple, and the molar volume 100 is preserved. -/
theorem C5_costas_reduces_to_base_witness :
    fragmentMolecule adapterC5 mC5.smiles = some frsC5 ∧
    (calculateCostas adapterC5 mC5 298.15).deltaD =
      (calculateVanKrevelen frsC5 mC5.molecularWeight).deltaD ∧
    (calculateCostas adapterC5 mC5 298.15).deltaP =
      (calculateVanKrevelen frsC5 mC5.molecularWeight).deltaP ∧
    (calculateCostas adapterC5 mC5 298.15).deltaH =
      (calculateVanKrevelen frsC5 mC5.molecularWeight).deltaH ∧
    (calculateCostas adapterC5 mC5 298.15).molarVolume = some 100 := by
  have h := C5_costas_reduces_to_base adapterC5 mC5 frsC5 fragmentMolecule_adapterC5
  refine ⟨fragmentMolecule_adapterC5, h.1, h.2.1, h.2.2.1, ?_⟩
  refine h.2.2.2 100 ?_ (by norm_num)
  have hmw : mC5.molecularWeight = (100:ℝ) := rfl
  rw [hmw, vkh_molarVolume_eq, vkhVolume_frsC5]
  unfold toFixed
  rw [show (100:ℝ) * 10 ^ 1 = ((1000:ℤ):ℝ) by norm_num, round_intCast]
  norm_num
